import Mathlib

/-!
# MarFa native bridge (`app/src/main/cpp/xray_stub.cpp`)

A shallow embedding of the four JNI entry points of the Xray stub bridge and
the properties stated about them.

The C++ functions act on three things outside themselves: the Android log
(through `__android_log_print`), the JNI string borrows handed out by
`GetStringUTFChars` and taken back by `ReleaseStringUTFChars`, and the Java
strings made by `NewStringUTF`.  All three are explicit fields of `World`;
each entry point is a function `World → Except Fault (result × World)`.
The source has no global or static variable, so `World` has no field for an
engine or a lifecycle.

Modelling choices, all stated where they are made:
* a Java string (`jstring`) is its text, a Lean `String`; the modified UTF-8
  encoding that `GetStringUTFChars` produces is a one-to-one re-encoding of
  that text and is not modelled; the argument is a string (not `null`) and
  the borrow succeeds;
* a `const char *` is an address (`CharPtr`); reading it is only defined
  while the borrow it came from is outstanding, otherwise the call faults;
* `__android_log_print` records the level, the tag and the whole formatted
  message; limits of the platform logger are outside the source.
-/

namespace MarFa

/-! ## JNI primitive types -/

/-- A Java string reference, identified with the text it holds. -/
abbrev jstring := String

/-- The type `jboolean` of `jni.h`. -/
abbrev jboolean := Bool

/-- The constant `JNI_TRUE` of `jni.h`. -/
def JNI_TRUE : jboolean := true

/-- The type `jint` of `jni.h`: a signed integer.  Every `Int` is allowed, so a
statement over all `jint` covers every 32-bit value. -/
abbrev jint := Int

/-- The type `jlong` of `jni.h`: a signed integer; the 64-bit range is `isJlong`. -/
abbrev jlong := Int

/-- The values a `jlong` can hold. -/
def isJlong (n : Int) : Prop := -9223372036854775808 ≤ n ∧ n ≤ 9223372036854775807

instance (n : Int) : Decidable (isJlong n) := by unfold isJlong; infer_instance

/-- A native `const char *`: the address of a character buffer. -/
abbrev CharPtr := Nat

/-! ## The world the bridge acts on -/

/-- Android log priorities used by the source (`ANDROID_LOG_INFO`, `ANDROID_LOG_ERROR`). -/
inductive LogPriority where
  | ANDROID_LOG_INFO
  | ANDROID_LOG_ERROR
  deriving DecidableEq, Repr

/-- One line of the Android log: priority, tag and formatted message. -/
structure LogEntry where
  level : LogPriority
  tag : String
  message : String
  deriving DecidableEq, Repr

/-- An outstanding `GetStringUTFChars` borrow: the buffer address and the
string it was taken from. -/
structure Borrow where
  addr : CharPtr
  owner : jstring
  deriving DecidableEq, Repr

/-- What the bridge did with the JNI string interface, in order. -/
inductive Event where
  | acquire (s : jstring) (p : CharPtr)
  | read (p : CharPtr)
  | release (s : jstring) (p : CharPtr)
  | newString (text : String)
  deriving DecidableEq, Repr

/-- Everything outside the bridge that its functions read or write. -/
structure World where
  log : List LogEntry
  borrows : List Borrow
  nextAddr : CharPtr
  trace : List Event
  deriving DecidableEq, Repr

/-- The world before any call: empty log, nothing borrowed, nothing done. -/
def World.fresh : World :=
  { log := [], borrows := [], nextAddr := 0, trace := [] }

/-- The ways a call can leave defined behaviour. -/
inductive Fault where
  | danglingRead (p : CharPtr)
  | badRelease (s : jstring) (p : CharPtr)
  | badFormat
  deriving DecidableEq, Repr

/-! ## JNI string functions -/

/-- The call `env->GetStringUTFChars(s, 0)`: hands out a new buffer holding the
characters of `s` and records the borrow. -/
def GetStringUTFChars (s : jstring) (w : World) : Except Fault (CharPtr × World) :=
  .ok (w.nextAddr,
    { w with
      borrows := { addr := w.nextAddr, owner := s } :: w.borrows
      nextAddr := w.nextAddr + 1
      trace := w.trace ++ [Event.acquire s w.nextAddr] })

/-- The borrow, if any, that the address `p` belongs to. -/
def findBorrow (p : CharPtr) (bs : List Borrow) : Option Borrow :=
  bs.find? (fun b => b.addr == p)

/-- The call `env->ReleaseStringUTFChars(s, p)`: ends the borrow of `p` from `s`;
a fault when `p` is not an outstanding borrow of `s`. -/
def ReleaseStringUTFChars (s : jstring) (p : CharPtr) (w : World) : Except Fault World :=
  match findBorrow p w.borrows with
  | some b =>
    if b.owner = s then
      .ok { w with borrows := w.borrows.erase b, trace := w.trace ++ [Event.release s p] }
    else .error (Fault.badRelease s p)
  | none => .error (Fault.badRelease s p)

/-- Reading the C string at `p`: defined only while `p` is borrowed. -/
def readChars (p : CharPtr) (w : World) : Except Fault (String × World) :=
  match findBorrow p w.borrows with
  | some b => .ok (b.owner, { w with trace := w.trace ++ [Event.read p] })
  | none => .error (Fault.danglingRead p)

/-- The call `env->NewStringUTF(text)`: a new Java string holding `text`. -/
def NewStringUTF (text : String) (w : World) : Except Fault (jstring × World) :=
  .ok (text, { w with trace := w.trace ++ [Event.newString text] })

/-! ## Logging -/

/-- An argument of a `printf`-style call. -/
inductive FmtArg where
  | str (p : CharPtr)
  | int (n : Int)
  deriving DecidableEq, Repr

/-- An argument after its string has been read. -/
inductive FmtVal where
  | str (s : String)
  | int (n : Int)
  deriving DecidableEq, Repr

/-- Reads the strings the arguments point to, left to right. -/
def readArgs : List FmtArg → World → Except Fault (List FmtVal × World)
  | [], w => .ok ([], w)
  | FmtArg.int n :: rest, w => do
    let (vs, w) ← readArgs rest w
    return (FmtVal.int n :: vs, w)
  | FmtArg.str p :: rest, w => do
    let (s, w) ← readChars p w
    let (vs, w) ← readArgs rest w
    return (FmtVal.str s :: vs, w)

/-- The conversions `%s`, `%d` and `%%` of `printf`; the flag says that the
previous character was an unfinished `%`.  A conversion without a matching
argument, or any other conversion, has no defined output. -/
def vformat : Bool → List Char → List FmtVal → Option (List Char)
  | false, [], _ => some []
  | true, [], _ => none
  | false, c :: cs, args =>
    if c = '%' then vformat true cs args
    else (vformat false cs args).map (fun out => c :: out)
  | true, c :: cs, args =>
    if c = 's' then
      match args with
      | FmtVal.str s :: rest => (vformat false cs rest).map (fun out => s.toList ++ out)
      | _ => none
    else if c = 'd' then
      match args with
      | FmtVal.int n :: rest => (vformat false cs rest).map (fun out => (toString n).toList ++ out)
      | _ => none
    else if c = '%' then (vformat false cs args).map (fun out => '%' :: out)
    else none

/-- The call `__android_log_print(prio, tag, fmt, ...)`: formats the message and
appends one entry to the log. -/
def __android_log_print (prio : LogPriority) (tag : String) (fmt : String)
    (args : List FmtArg) (w : World) : Except Fault World := do
  let (vals, w) ← readArgs args w
  match vformat false fmt.toList vals with
  | some out => return { w with log := w.log ++ [{ level := prio, tag := tag, message := String.mk out }] }
  | none => throw Fault.badFormat

/-- The source macro `LOG_TAG`. -/
def LOG_TAG : String := "XrayCore"

/-- The source macro `LOGI(...)`. -/
def LOGI (fmt : String) (args : List FmtArg) (w : World) : Except Fault World :=
  __android_log_print LogPriority.ANDROID_LOG_INFO LOG_TAG fmt args w

/-- The source macro `LOGE(...)`. -/
def LOGE (fmt : String) (args : List FmtArg) (w : World) : Except Fault World :=
  __android_log_print LogPriority.ANDROID_LOG_ERROR LOG_TAG fmt args w

/-! ## The four entry points -/

/-- The entry point `nativeStart(config_json)`. -/
def Java_net_marfanet_android_xray_XrayCore_nativeStart (config_json : jstring)
    (env : World) : Except Fault (jboolean × World) := do
  let (config, env) ← GetStringUTFChars config_json env
  let env ← LOGI "Starting Xray core with config: %s" [FmtArg.str config] env
  let env ← ReleaseStringUTFChars config_json config env
  return (JNI_TRUE, env)

/-- The entry point `nativeStop()`. -/
def Java_net_marfanet_android_xray_XrayCore_nativeStop
    (env : World) : Except Fault (jboolean × World) := do
  let env ← LOGI "Stopping Xray core" [] env
  return (JNI_TRUE, env)

/-- The text of the raw string literal assigned to `stats` in `nativeGetStats`. -/
def statsLiteral : String :=
  "\x7b\"uplink\": 1024, \"downlink\": 2048, \"uplinkTotal\": 10240, \"downlinkTotal\": 20480\x7d"

/-- The entry point `nativeGetStats()`. -/
def Java_net_marfanet_android_xray_XrayCore_nativeGetStats
    (env : World) : Except Fault (jstring × World) := do
  let env ← LOGI "Getting Xray stats" [] env
  let stats : String := statsLiteral
  NewStringUTF stats env

/-- The entry point `nativeTestConnectivity(address, port)`. -/
def Java_net_marfanet_android_xray_XrayCore_nativeTestConnectivity (address : jstring)
    (port : jint) (env : World) : Except Fault (jlong × World) := do
  let (addr, env) ← GetStringUTFChars address env
  let env ← LOGI "Testing connectivity to %s:%d" [FmtArg.str addr, FmtArg.int port] env
  let env ← ReleaseStringUTFChars address addr env
  return (50, env)

/-! ## Call histories and what a caller observes -/

/-- One call of the managed caller into the bridge. -/
inductive Call where
  | nativeStart (config_json : jstring)
  | nativeStop
  | nativeGetStats
  | nativeTestConnectivity (address : jstring) (port : jint)
  deriving DecidableEq, Repr

/-- The value a call hands back to the managed caller. -/
inductive Returned where
  | boolean (b : jboolean)
  | text (s : jstring)
  | long (n : jlong)
  deriving DecidableEq, Repr

/-- Performs one call. -/
def invoke (call : Call) (w : World) : Except Fault (Returned × World) :=
  match call with
  | Call.nativeStart config_json => do
    let (b, w) ← Java_net_marfanet_android_xray_XrayCore_nativeStart config_json w
    return (Returned.boolean b, w)
  | Call.nativeStop => do
    let (b, w) ← Java_net_marfanet_android_xray_XrayCore_nativeStop w
    return (Returned.boolean b, w)
  | Call.nativeGetStats => do
    let (s, w) ← Java_net_marfanet_android_xray_XrayCore_nativeGetStats w
    return (Returned.text s, w)
  | Call.nativeTestConnectivity address port => do
    let (n, w) ← Java_net_marfanet_android_xray_XrayCore_nativeTestConnectivity address port w
    return (Returned.long n, w)

/-- Performs a history of calls, oldest first, and collects what they returned. -/
def runCalls : List Call → World → Except Fault (List Returned × World)
  | [], w => .ok ([], w)
  | call :: rest, w => do
    let (r, w) ← invoke call w
    let (rs, w) ← runCalls rest w
    return (r :: rs, w)

/-- The value of a call that returned, and nothing for one that faulted. -/
def returnedValue {α : Type} : Except Fault (α × World) → Option α
  | .ok (a, _) => some a
  | .error _ => none

/-- What a `nativeGetStats` call made in world `w` returns. -/
def observedStats (w : World) : Option jstring :=
  returnedValue (Java_net_marfanet_android_xray_XrayCore_nativeGetStats w)

/-- What a `nativeTestConnectivity` call made in world `w` returns. -/
def observedLatency (address : jstring) (port : jint) (w : World) : Option jlong :=
  returnedValue (Java_net_marfanet_android_xray_XrayCore_nativeTestConnectivity address port w)

/-- Replays a trace against the set of live buffers: a read or a release of a
buffer that is not live has no result. -/
def replay : List CharPtr → List Event → Option (List CharPtr)
  | live, [] => some live
  | live, Event.acquire _ p :: es => replay (p :: live) es
  | live, Event.read p :: es => if p ∈ live then replay live es else none
  | live, Event.release _ p :: es => if p ∈ live then replay (live.erase p) es else none
  | live, Event.newString _ :: es => replay live es

/-! ## Reading the statistics text

The notions below are not in the source; they say what the statements about
the returned text mean.  `parseFlatJsonObject` accepts a subset of RFC 8259:
one object whose member names are strings without escapes and whose values
are integers (no fraction, no exponent, no leading zero), with JSON whitespace
allowed between tokens.  Everything it accepts is well-formed JSON and a flat
object. -/

/-- JSON whitespace: space, tab, line feed, carriage return. -/
def isJsonWs (c : Char) : Bool :=
  c = ' ' || c = '\t' || c = '\n' || c = '\r'

/-- Drops leading JSON whitespace. -/
def skipWs (cs : List Char) : List Char :=
  cs.dropWhile isJsonWs

/-- The characters of a JSON string up to its closing quote, and what follows it. -/
def parseStringBody : List Char → Option (List Char × List Char)
  | [] => none
  | c :: cs =>
    if c = '"' then some ([], cs)
    else if c = '\\' || c.toNat < 32 then none
    else (parseStringBody cs).map (fun kr => (c :: kr.1, kr.2))

/-- A JSON string: opening quote, body, closing quote. -/
def parseJsonString : List Char → Option (String × List Char)
  | [] => none
  | c :: cs =>
    if c = '"' then (parseStringBody cs).map (fun kr => (String.mk kr.1, kr.2))
    else none

/-- The number a list of decimal digits denotes. -/
def digitsValue (ds : List Char) : Nat :=
  ds.foldl (fun acc d => 10 * acc + (d.toNat - '0'.toNat)) 0

/-- Unsigned decimal digits without a leading zero, not followed by a fraction
or an exponent. -/
def parseDigits (cs : List Char) : Option (Nat × List Char) :=
  let ds := cs.takeWhile Char.isDigit
  let rest := cs.dropWhile Char.isDigit
  if ds.isEmpty then none
  else if ds.head? = some '0' && ds.length ≠ 1 then none
  else
    match rest with
    | c :: _ => if c = '.' || c = 'e' || c = 'E' then none else some (digitsValue ds, rest)
    | [] => some (digitsValue ds, rest)

/-- A JSON number that is an integer. -/
def parseJsonInteger : List Char → Option (Int × List Char)
  | [] => none
  | c :: cs =>
    if c = '-' then (parseDigits cs).map (fun nr => (-(nr.1 : Int), nr.2))
    else (parseDigits (c :: cs)).map (fun nr => ((nr.1 : Int), nr.2))

/-- The given character, then the rest. -/
def expectChar (x : Char) : List Char → Option (List Char)
  | [] => none
  | c :: cs => if c = x then some cs else none

/-- One or more `name : integer` members separated by commas, up to and
including the closing brace. -/
def parseMembers : Nat → List Char → Option (List (String × Int) × List Char)
  | 0, _ => none
  | fuel + 1, cs => do
    let (k, cs) ← parseJsonString (skipWs cs)
    let cs ← expectChar ':' (skipWs cs)
    let (v, cs) ← parseJsonInteger (skipWs cs)
    match skipWs cs with
    | [] => none
    | c :: rest =>
      if c = ',' then (parseMembers fuel rest).map (fun mr => ((k, v) :: mr.1, mr.2))
      else if c = '}' then some ([(k, v)], rest)
      else none

/-- The members of a text that is one flat JSON object with integer values,
in the order written. -/
def parseFlatJsonObject (text : String) : Option (List (String × Int)) := do
  let cs ← expectChar '{' (skipWs text.toList)
  match skipWs cs with
  | [] => none
  | c :: rest =>
    if c = '}' then
      if (skipWs rest).isEmpty then some [] else none
    else do
      let (ms, rest) ← parseMembers text.length (c :: rest)
      if (skipWs rest).isEmpty then some ms else none

/-- The four documented key names, in the documented order. -/
def statsKeys : List String := ["uplink", "downlink", "uplinkTotal", "downlinkTotal"]

/-- A decimal integer numeral: an optional minus sign and one or more digits. -/
def isDecimalNumeral (s : String) : Bool :=
  match s.toList with
  | [] => false
  | c :: cs =>
    if c = '-' then !cs.isEmpty && cs.all Char.isDigit
    else (c :: cs).all Char.isDigit

/-- The documented shape of the statistics text, written exactly as the
interface table writes it, with the four `N` as parameters. -/
def documentedStatsShape (n1 n2 n3 n4 : String) : String :=
  "\x7b\"uplink\":" ++ n1 ++ ",\"downlink\":" ++ n2 ++ ",\"uplinkTotal\":" ++ n3
    ++ ",\"downlinkTotal\":" ++ n4 ++ "\x7d"

/-- The shape of the source literal: as `documentedStatsShape`, with one space
after every colon and every comma. -/
def spacedStatsShape (n1 n2 n3 n4 : String) : String :=
  "\x7b\"uplink\": " ++ n1 ++ ", \"downlink\": " ++ n2 ++ ", \"uplinkTotal\": " ++ n3
    ++ ", \"downlinkTotal\": " ++ n4 ++ "\x7d"

/-- The mock traffic numbers of the source literal. -/
def mockTrafficNumbers : List Int := [1024, 2048, 10240, 20480]

/-- The text carries the mock traffic numbers as its counter values. -/
def returnsMockNumbers (text : String) : Bool :=
  (parseFlatJsonObject text).map (fun ms => ms.map Prod.snd) = some mockTrafficNumbers

/-- A "not running" representation, read as widely as the words allow: the four
counters all zero, or any text that is not a counters object (an error text). -/
def isNotRunningRepresentation (text : String) : Bool :=
  match parseFlatJsonObject text with
  | some ms => ms.map Prod.fst = statsKeys && ms.all (fun kv => kv.2 = 0)
  | none => true

/-! ## What each entry point does, in full -/

theorem findBorrow_head (p : CharPtr) (s : jstring) (bs : List Borrow) :
    findBorrow p ({ addr := p, owner := s } :: bs) = some { addr := p, owner := s } := by
  simp [findBorrow]

theorem vformat_start (c : String) :
    vformat false "Starting Xray core with config: %s".toList [FmtVal.str c]
      = some ("Starting Xray core with config: " ++ c).toList := by
  simp [vformat]

theorem LOGI_start (c : String) (p : CharPtr) (w : World)
    (h : findBorrow p w.borrows = some { addr := p, owner := c }) :
    LOGI "Starting Xray core with config: %s" [FmtArg.str p] w
      = .ok { w with
              log := w.log ++ [{ level := LogPriority.ANDROID_LOG_INFO, tag := "XrayCore",
                                 message := "Starting Xray core with config: " ++ c }]
              trace := w.trace ++ [Event.read p] } := by
  simp only [LOGI, __android_log_print, readArgs, readChars, h, bind, Except.bind, pure,
    Except.pure, vformat_start, LOG_TAG]
  rfl

theorem nativeStart_eq (c : jstring) (w : World) :
    Java_net_marfanet_android_xray_XrayCore_nativeStart c w
      = .ok (JNI_TRUE,
          { log := w.log ++ [{ level := LogPriority.ANDROID_LOG_INFO, tag := "XrayCore",
                               message := "Starting Xray core with config: " ++ c }]
            borrows := w.borrows
            nextAddr := w.nextAddr + 1
            trace := w.trace ++ [Event.acquire c w.nextAddr, Event.read w.nextAddr,
                                 Event.release c w.nextAddr] }) := by
  simp only [Java_net_marfanet_android_xray_XrayCore_nativeStart, GetStringUTFChars, bind,
    Except.bind]
  rw [LOGI_start c w.nextAddr _ (findBorrow_head _ _ _)]
  simp [ReleaseStringUTFChars, findBorrow_head, pure, Except.pure]

theorem vformat_plain_stop :
    vformat false "Stopping Xray core".toList [] = some "Stopping Xray core".toList := by
  simp [vformat]

theorem vformat_plain_stats :
    vformat false "Getting Xray stats".toList [] = some "Getting Xray stats".toList := by
  simp [vformat]

theorem vformat_test (a : String) (port : Int) :
    vformat false "Testing connectivity to %s:%d".toList [FmtVal.str a, FmtVal.int port]
      = some ("Testing connectivity to " ++ a ++ ":" ++ toString port).toList := by
  simp [vformat]

theorem LOGI_test (a : String) (port : Int) (p : CharPtr) (w : World)
    (h : findBorrow p w.borrows = some { addr := p, owner := a }) :
    LOGI "Testing connectivity to %s:%d" [FmtArg.str p, FmtArg.int port] w
      = .ok { w with
              log := w.log ++ [{ level := LogPriority.ANDROID_LOG_INFO, tag := "XrayCore",
                                 message := "Testing connectivity to " ++ a ++ ":"
                                   ++ toString port }]
              trace := w.trace ++ [Event.read p] } := by
  simp only [LOGI, __android_log_print, readArgs, readChars, h, bind, Except.bind, pure,
    Except.pure, vformat_test, LOG_TAG]
  rfl

theorem nativeStop_eq (w : World) :
    Java_net_marfanet_android_xray_XrayCore_nativeStop w
      = .ok (JNI_TRUE,
          { w with
            log := w.log ++ [{ level := LogPriority.ANDROID_LOG_INFO, tag := "XrayCore",
                               message := "Stopping Xray core" }] }) := by
  simp only [Java_net_marfanet_android_xray_XrayCore_nativeStop, LOGI, __android_log_print,
    readArgs, bind, Except.bind, pure, Except.pure, vformat_plain_stop, LOG_TAG]
  rfl

theorem nativeGetStats_eq (w : World) :
    Java_net_marfanet_android_xray_XrayCore_nativeGetStats w
      = .ok (statsLiteral,
          { w with
            log := w.log ++ [{ level := LogPriority.ANDROID_LOG_INFO, tag := "XrayCore",
                               message := "Getting Xray stats" }]
            trace := w.trace ++ [Event.newString statsLiteral] }) := by
  simp only [Java_net_marfanet_android_xray_XrayCore_nativeGetStats, LOGI,
    __android_log_print, readArgs, bind, Except.bind, pure, Except.pure, vformat_plain_stats,
    LOG_TAG, NewStringUTF]
  rfl

theorem nativeTestConnectivity_eq (a : jstring) (port : jint) (w : World) :
    Java_net_marfanet_android_xray_XrayCore_nativeTestConnectivity a port w
      = .ok (50,
          { log := w.log ++ [{ level := LogPriority.ANDROID_LOG_INFO, tag := "XrayCore",
                               message := "Testing connectivity to " ++ a ++ ":"
                                 ++ toString port }]
            borrows := w.borrows
            nextAddr := w.nextAddr + 1
            trace := w.trace ++ [Event.acquire a w.nextAddr, Event.read w.nextAddr,
                                 Event.release a w.nextAddr] }) := by
  simp only [Java_net_marfanet_android_xray_XrayCore_nativeTestConnectivity,
    GetStringUTFChars, bind, Except.bind]
  rw [LOGI_test a port w.nextAddr _ (findBorrow_head _ _ _)]
  simp [ReleaseStringUTFChars, findBorrow_head, pure, Except.pure]


theorem invoke_total (call : Call) (w : World) : ∃ r w1, invoke call w = .ok (r, w1) := by
  cases call with
  | nativeStart c => exact ⟨_, _, by simp only [invoke, nativeStart_eq]; rfl⟩
  | nativeStop => exact ⟨_, _, by simp only [invoke, nativeStop_eq]; rfl⟩
  | nativeGetStats => exact ⟨_, _, by simp only [invoke, nativeGetStats_eq]; rfl⟩
  | nativeTestConnectivity a p =>
    exact ⟨_, _, by simp only [invoke, nativeTestConnectivity_eq]; rfl⟩

theorem runCalls_total (history : List Call) (w : World) :
    ∃ rs w1, runCalls history w = .ok (rs, w1) := by
  induction history generalizing w with
  | nil => exact ⟨[], w, rfl⟩
  | cons call rest ih =>
    obtain ⟨r, w1, h1⟩ := invoke_total call w
    obtain ⟨rs, w2, h2⟩ := ih w1
    exact ⟨r :: rs, w2, by simp [runCalls, h1, h2, bind, Except.bind, pure, Except.pure]⟩

theorem parse_statsLiteral :
    parseFlatJsonObject statsLiteral
      = some [("uplink", 1024), ("downlink", 2048), ("uplinkTotal", 10240),
              ("downlinkTotal", 20480)] := by
  decide

theorem statsLiteral_ne_documentedStatsShape (n1 n2 n3 n4 : String)
    (h1 : isDecimalNumeral n1 = true) :
    statsLiteral ≠ documentedStatsShape n1 n2 n3 n4 := by
  intro h
  have hd := congrArg String.data h
  rcases n1 with ⟨d1⟩
  cases d1 with
  | nil => simp [isDecimalNumeral] at h1
  | cons c cs =>
    simp only [statsLiteral, documentedStatsShape, String.data_append] at hd
    have hc : c = ' ' := by
      simp at hd
      exact hd.1.symm
    subst hc
    simp [isDecimalNumeral] at h1

theorem replay_borrow_window (s : jstring) (p : CharPtr) (live : List CharPtr) :
    replay live [Event.acquire s p, Event.read p, Event.release s p] = some live := by
  simp [replay]

/-! ## The claims -/

/-- C1: for every configuration text, the empty text and text that is not valid
JSON included, `nativeStart` returns, and what it returns is `JNI_TRUE`, the
boolean true; started from the same world with any other configuration it
returns the same value. -/
theorem nativeStart_returns_true (config_json : jstring) (w : World) :
    (∃ w1, Java_net_marfanet_android_xray_XrayCore_nativeStart config_json w
             = .ok (JNI_TRUE, w1))
    ∧ JNI_TRUE = true
    ∧ (∃ w1, Java_net_marfanet_android_xray_XrayCore_nativeStart "" w = .ok (true, w1))
    ∧ (∃ w1, Java_net_marfanet_android_xray_XrayCore_nativeStart "\x7b\"outbounds\": [" w
               = .ok (true, w1))
    ∧ (∀ other : jstring,
        returnedValue (Java_net_marfanet_android_xray_XrayCore_nativeStart other w)
          = returnedValue (Java_net_marfanet_android_xray_XrayCore_nativeStart config_json w)) := by
  refine ⟨⟨_, nativeStart_eq config_json w⟩, rfl, ⟨_, nativeStart_eq _ w⟩,
    ⟨_, nativeStart_eq _ w⟩, ?_⟩
  intro other
  rw [nativeStart_eq, nativeStart_eq]
  rfl

/-- C2: after every history of calls, from every world, the history runs to its
end and the next `nativeGetStats` returns the one fixed text of the source
literal; the history may or may not contain `nativeStart` and `nativeStop`. -/
theorem nativeGetStats_fixed_text (history : List Call) (w : World) :
    ∃ rs w1 w2, runCalls history w = .ok (rs, w1)
      ∧ Java_net_marfanet_android_xray_XrayCore_nativeGetStats w1
          = .ok ("\x7b\"uplink\": 1024, \"downlink\": 2048, \"uplinkTotal\": 10240, \"downlinkTotal\": 20480\x7d", w2) := by
  obtain ⟨rs, w1, h⟩ := runCalls_total history w
  exact ⟨rs, w1, _, h, nativeGetStats_eq w1⟩

/-- C3: after a `nativeStart` that returned `JNI_TRUE`, `nativeGetStats` returns a
text that parses as a flat JSON object whose member names are exactly `uplink`,
`downlink`, `uplinkTotal`, `downlinkTotal`, each once, and whose values are
integers greater than or equal to 0. -/
theorem stats_after_start_wellformed (config_json : jstring) (w w1 : World)
    (_hstart : Java_net_marfanet_android_xray_XrayCore_nativeStart config_json w
                = .ok (JNI_TRUE, w1)) :
    ∃ text w2 members,
      Java_net_marfanet_android_xray_XrayCore_nativeGetStats w1 = .ok (text, w2)
      ∧ parseFlatJsonObject text = some members
      ∧ members.map Prod.fst = ["uplink", "downlink", "uplinkTotal", "downlinkTotal"]
      ∧ (members.map Prod.fst).Nodup
      ∧ members.length = 4
      ∧ ∀ kv ∈ members, 0 ≤ kv.2 := by
  refine ⟨_, _, _, nativeGetStats_eq w1, parse_statsLiteral, rfl, by decide, rfl, ?_⟩
  intro kv hkv
  simp only [List.mem_cons, List.mem_singleton, List.not_mem_nil, or_false] at hkv
  rcases hkv with h | h | h | h <;> subst h <;> decide

/-- Witness of C3: `nativeStart` with the configuration `{}` in the fresh world
returns `JNI_TRUE`, and the statistics read in the world it leaves are
well-formed. -/
theorem stats_after_start_wellformed_witness :
    Java_net_marfanet_android_xray_XrayCore_nativeStart "\x7b\x7d" World.fresh
      = .ok (JNI_TRUE,
          { log := [{ level := LogPriority.ANDROID_LOG_INFO, tag := "XrayCore",
                      message := "Starting Xray core with config: \x7b\x7d" }]
            borrows := []
            nextAddr := 1
            trace := [Event.acquire "\x7b\x7d" 0, Event.read 0, Event.release "\x7b\x7d" 0] })
    ∧ ∃ text w2 members,
      Java_net_marfanet_android_xray_XrayCore_nativeGetStats
          { log := [{ level := LogPriority.ANDROID_LOG_INFO, tag := "XrayCore",
                      message := "Starting Xray core with config: \x7b\x7d" }]
            borrows := []
            nextAddr := 1
            trace := [Event.acquire "\x7b\x7d" 0, Event.read 0, Event.release "\x7b\x7d" 0] }
        = .ok (text, w2)
      ∧ parseFlatJsonObject text = some members
      ∧ members.map Prod.fst = ["uplink", "downlink", "uplinkTotal", "downlinkTotal"]
      ∧ (members.map Prod.fst).Nodup
      ∧ members.length = 4
      ∧ ∀ kv ∈ members, 0 ≤ kv.2 :=
  ⟨by rfl, stats_after_start_wellformed "\x7b\x7d" World.fresh _ (by rfl)⟩

/-- C4 (counterexample): the text `nativeGetStats` returns in the fresh world is
not the documented template with four decimal numerals put in: the returned
text has a space after the first colon, where the template has the first
character of a numeral. -/
theorem stats_not_documented_shape :
    ¬ ∃ text w1 n1 n2 n3 n4,
        Java_net_marfanet_android_xray_XrayCore_nativeGetStats World.fresh = .ok (text, w1)
        ∧ isDecimalNumeral n1 = true ∧ isDecimalNumeral n2 = true
        ∧ isDecimalNumeral n3 = true ∧ isDecimalNumeral n4 = true
        ∧ text = documentedStatsShape n1 n2 n3 n4 := by
  rintro ⟨text, w1, n1, n2, n3, n4, hret, h1, -, -, -, hshape⟩
  rw [nativeGetStats_eq] at hret
  injection hret with hret
  injection hret with htext _
  exact statsLiteral_ne_documentedStatsShape n1 n2 n3 n4 h1 (htext.trans hshape)

/-- C4 (amended): in every world the text `nativeGetStats` returns is, character
for character, the template with one space after each colon and each comma,
filled with the decimal numerals 1024, 2048, 10240 and 20480, the four keys in
the documented order and nothing else in the text. -/
theorem stats_spaced_shape (w : World) :
    ∃ w1 n1 n2 n3 n4,
      Java_net_marfanet_android_xray_XrayCore_nativeGetStats w
        = .ok (spacedStatsShape n1 n2 n3 n4, w1)
      ∧ isDecimalNumeral n1 = true ∧ isDecimalNumeral n2 = true
      ∧ isDecimalNumeral n3 = true ∧ isDecimalNumeral n4 = true
      ∧ [n1, n2, n3, n4] = ["1024", "2048", "10240", "20480"] := by
  have hshape : statsLiteral = spacedStatsShape "1024" "2048" "10240" "20480" := by decide
  obtain ⟨w1, h⟩ : ∃ w1, Java_net_marfanet_android_xray_XrayCore_nativeGetStats w
      = .ok (statsLiteral, w1) := ⟨_, nativeGetStats_eq w⟩
  rw [hshape] at h
  exact ⟨w1, "1024", "2048", "10240", "20480", h, by decide, by decide, by decide,
    by decide, rfl⟩

/-- C5: for every address text and every port, `nativeTestConnectivity` returns,
and returns 50; any two inputs, in any two worlds, give the same result; 50
is the only value any input yields, so no input yields a distinct value for
an unreachable or timed-out target. -/
theorem nativeTestConnectivity_constant (address : jstring) (port : jint) (w : World) :
    (∃ w1, Java_net_marfanet_android_xray_XrayCore_nativeTestConnectivity address port w
             = .ok (50, w1))
    ∧ isJlong 50
    ∧ (∀ (address2 : jstring) (port2 : jint) (w2 : World),
        observedLatency address2 port2 w2 = observedLatency address port w)
    ∧ (∀ r : jlong, observedLatency address port w = some r ↔ r = 50) := by
  refine ⟨⟨_, nativeTestConnectivity_eq address port w⟩, by decide, ?_, ?_⟩
  · intro address2 port2 w2
    simp only [observedLatency, nativeTestConnectivity_eq, returnedValue]
  · intro r
    simp only [observedLatency, nativeTestConnectivity_eq, returnedValue, Option.some.injEq]
    exact eq_comm

/-- C6: in every world, the fresh one included, `nativeStop` returns `JNI_TRUE`
and leaves the borrows, the buffer allocator and the JNI trace as they were
(there is nothing it tears down); its one effect is the log line
"Stopping Xray core".  A second `nativeStop` right after returns `JNI_TRUE`
again and leaves the same state as the first. -/
theorem nativeStop_idempotent (w : World) :
    ∃ w1 w2,
      Java_net_marfanet_android_xray_XrayCore_nativeStop w = .ok (JNI_TRUE, w1)
      ∧ Java_net_marfanet_android_xray_XrayCore_nativeStop w1 = .ok (JNI_TRUE, w2)
      ∧ JNI_TRUE = true
      ∧ (w1.borrows = w.borrows ∧ w1.nextAddr = w.nextAddr ∧ w1.trace = w.trace)
      ∧ (w2.borrows = w1.borrows ∧ w2.nextAddr = w1.nextAddr ∧ w2.trace = w1.trace)
      ∧ w1.log = w.log ++ [{ level := LogPriority.ANDROID_LOG_INFO, tag := "XrayCore",
                             message := "Stopping Xray core" }]
      ∧ observedStats w1 = observedStats w ∧ observedStats w2 = observedStats w1
      ∧ (∀ (address : jstring) (port : jint),
          observedLatency address port w1 = observedLatency address port w
          ∧ observedLatency address port w2 = observedLatency address port w1)
      ∧ (∃ f, Java_net_marfanet_android_xray_XrayCore_nativeStop World.fresh
                = .ok (JNI_TRUE, f)
              ∧ f.borrows = [] ∧ f.nextAddr = 0 ∧ f.trace = []) := by
  refine ⟨_, _, nativeStop_eq w, nativeStop_eq _, rfl, ⟨rfl, rfl, rfl⟩, ⟨rfl, rfl, rfl⟩, rfl,
    ?_, ?_, ?_, ⟨_, nativeStop_eq World.fresh, rfl, rfl, rfl⟩⟩
  · simp only [observedStats, nativeGetStats_eq, returnedValue]
  · simp only [observedStats, nativeGetStats_eq, returnedValue]
  · intro address port
    simp only [observedLatency, nativeTestConnectivity_eq, returnedValue, and_self]

/-- C7 (counterexample): it is not the case that in the fresh world
`nativeGetStats` returns a "not running" representation that is free of the
mock traffic numbers. -/
theorem fresh_stats_not_running_refuted :
    ¬ ∃ text w1,
        Java_net_marfanet_android_xray_XrayCore_nativeGetStats World.fresh = .ok (text, w1)
        ∧ isNotRunningRepresentation text = true
        ∧ returnsMockNumbers text = false := by
  rintro ⟨text, w1, hret, -, hmock⟩
  rw [nativeGetStats_eq] at hret
  injection hret with hret
  injection hret with htext _
  subst htext
  revert hmock
  decide

/-- C7 (amended): in the fresh world `nativeGetStats` returns the fixed mock text
of the source literal, the same text it returns in every other world: its
counters are 1024, 2048, 10240 and 20480, none of them zero, and the text is
not a "not running" representation. -/
theorem fresh_stats_are_mock :
    ∃ text w1 members,
      Java_net_marfanet_android_xray_XrayCore_nativeGetStats World.fresh = .ok (text, w1)
      ∧ text = "\x7b\"uplink\": 1024, \"downlink\": 2048, \"uplinkTotal\": 10240, \"downlinkTotal\": 20480\x7d"
      ∧ text = statsLiteral
      ∧ (∀ w : World, ∃ w2,
          Java_net_marfanet_android_xray_XrayCore_nativeGetStats w = .ok (text, w2))
      ∧ (∀ w : World, observedStats w = some text)
      ∧ (∀ (history : List Call) (w : World), ∃ rs w2 w3,
          runCalls history w = .ok (rs, w2)
          ∧ Java_net_marfanet_android_xray_XrayCore_nativeGetStats w2 = .ok (text, w3))
      ∧ parseFlatJsonObject text = some members
      ∧ members = [("uplink", 1024), ("downlink", 2048), ("uplinkTotal", 10240),
                   ("downlinkTotal", 20480)]
      ∧ members.map Prod.snd = [1024, 2048, 10240, 20480]
      ∧ (∀ kv ∈ members, kv.2 ≠ 0)
      ∧ returnsMockNumbers text = true
      ∧ isNotRunningRepresentation text = false := by
  refine ⟨_, _, _, nativeGetStats_eq World.fresh, rfl, rfl, ?_, ?_, ?_, parse_statsLiteral,
    rfl, rfl, ?_, ?_, ?_⟩
  · intro w
    exact ⟨_, nativeGetStats_eq w⟩
  · intro w
    simp only [observedStats, nativeGetStats_eq, returnedValue]
  · intro history w
    obtain ⟨rs, w2, h⟩ := runCalls_total history w
    exact ⟨rs, w2, _, h, nativeGetStats_eq w2⟩
  · intro kv hkv
    simp only [List.mem_cons, List.mem_singleton, List.not_mem_nil, or_false] at hkv
    rcases hkv with h | h | h | h <;> subst h <;> decide
  · decide
  · decide

/-- C8: for every configuration text, `nativeStart`, `nativeStop`, `nativeStart`
in a row all return `JNI_TRUE`, and what a caller observes after the second
start is what it observes after the first: `nativeGetStats` returns the same
text, `nativeTestConnectivity` the same number for every address and port, and
the same borrows are outstanding. -/
theorem start_stop_start_roundtrip (config_json : jstring) (w : World) :
    ∃ w1 w2 w3,
      Java_net_marfanet_android_xray_XrayCore_nativeStart config_json w = .ok (JNI_TRUE, w1)
      ∧ Java_net_marfanet_android_xray_XrayCore_nativeStop w1 = .ok (JNI_TRUE, w2)
      ∧ Java_net_marfanet_android_xray_XrayCore_nativeStart config_json w2 = .ok (JNI_TRUE, w3)
      ∧ JNI_TRUE = true
      ∧ observedStats w3 = observedStats w1
      ∧ observedStats w1 = some "\x7b\"uplink\": 1024, \"downlink\": 2048, \"uplinkTotal\": 10240, \"downlinkTotal\": 20480\x7d"
      ∧ (∀ (address : jstring) (port : jint),
          observedLatency address port w3 = observedLatency address port w1
          ∧ observedLatency address port w1 = some 50)
      ∧ w3.borrows = w1.borrows := by
  refine ⟨_, _, _, nativeStart_eq config_json w, nativeStop_eq _, nativeStart_eq config_json _,
    rfl, ?_, ?_, ?_, rfl⟩
  · simp only [observedStats, nativeGetStats_eq, returnedValue]
  · simp only [observedStats, nativeGetStats_eq, returnedValue]
    rfl
  · intro address port
    simp only [observedLatency, nativeTestConnectivity_eq, returnedValue, and_self]

/-- C9: for every configuration text `c`, `nativeStart` appends exactly one entry
to the log, at level info with tag "XrayCore" and message
"Starting Xray core with config: " followed by `c` as it is, and every earlier
entry stays where it was. -/
theorem nativeStart_logs_config (config_json : jstring) (w : World) :
    ∃ w1,
      Java_net_marfanet_android_xray_XrayCore_nativeStart config_json w = .ok (JNI_TRUE, w1)
      ∧ w1.log = w.log ++ [{ level := LogPriority.ANDROID_LOG_INFO, tag := "XrayCore",
                             message := "Starting Xray core with config: " ++ config_json }]
      ∧ w1.log.length = w.log.length + 1
      ∧ w1.log.take w.log.length = w.log := by
  refine ⟨_, nativeStart_eq config_json w, rfl, ?_, ?_⟩
  · simp
  · simp

/-- C10: `nativeStart` and `nativeTestConnectivity` each borrow the characters of
their text argument once, read them while the borrow is outstanding, and
release that same borrow once before returning; `nativeStop` and
`nativeGetStats` borrow nothing.  After each of the four calls the outstanding
borrows are those from before the call, and no call faults on a read after
release. -/
theorem borrows_balanced (config_json address : jstring) (port : jint) (w : World) :
    (∃ w1,
      Java_net_marfanet_android_xray_XrayCore_nativeStart config_json w = .ok (JNI_TRUE, w1)
      ∧ w1.trace = w.trace ++ [Event.acquire config_json w.nextAddr, Event.read w.nextAddr,
                               Event.release config_json w.nextAddr]
      ∧ w1.borrows = w.borrows)
    ∧ (∃ w1,
      Java_net_marfanet_android_xray_XrayCore_nativeTestConnectivity address port w
        = .ok (50, w1)
      ∧ w1.trace = w.trace ++ [Event.acquire address w.nextAddr, Event.read w.nextAddr,
                               Event.release address w.nextAddr]
      ∧ w1.borrows = w.borrows)
    ∧ (∃ w1,
      Java_net_marfanet_android_xray_XrayCore_nativeStop w = .ok (JNI_TRUE, w1)
      ∧ w1.trace = w.trace ∧ w1.borrows = w.borrows)
    ∧ (∃ text w1,
      Java_net_marfanet_android_xray_XrayCore_nativeGetStats w = .ok (text, w1)
      ∧ w1.trace = w.trace ++ [Event.newString text] ∧ w1.borrows = w.borrows)
    ∧ replay (w.borrows.map Borrow.addr)
          [Event.acquire config_json w.nextAddr, Event.read w.nextAddr,
           Event.release config_json w.nextAddr]
        = some (w.borrows.map Borrow.addr)
    ∧ replay (w.borrows.map Borrow.addr)
          [Event.acquire address w.nextAddr, Event.read w.nextAddr,
           Event.release address w.nextAddr]
        = some (w.borrows.map Borrow.addr) :=
  ⟨⟨_, nativeStart_eq config_json w, rfl, rfl⟩,
   ⟨_, nativeTestConnectivity_eq address port w, rfl, rfl⟩,
   ⟨_, nativeStop_eq w, rfl, rfl⟩,
   ⟨_, _, nativeGetStats_eq w, rfl, rfl⟩,
   replay_borrow_window _ _ _,
   replay_borrow_window _ _ _⟩

end MarFa
